import Mathlib

/-
Verification of the versioned help-loader core of `azure/cli/core/_help_loaders.py`.

The Python module merges YAML-authored help content into mutable in-memory help
objects.  The embedding below translates the pure data-merging logic directly:

  * Python runtime values (as they appear in parsed YAML documents) become the
    inductive type `Value`; Python truthiness becomes `Value.truthy`.
  * Python dictionaries become association lists (`Dict`) with first-match
    lookup (`dget`) and replace-or-append assignment (`dictSet`), which agrees
    with Python dict semantics whenever keys are unique (always the case for a
    parsed YAML mapping).
  * A mutable Python object's attribute store becomes `Obj`, an association
    list updated by prepending (`Obj.set`) and read first-match
    (`Obj.getattr`): exactly the read/write behaviour of `setattr`/`getattr`.
  * Each loader method becomes a function from its inputs (the raw data the
    instance would hold in `self._data`, plus the help object) to the updated
    help object; `versioned_load` composes them in the source's fixed order.
  * Fallible paths (`_get_entry_data` can raise `AttributeError`/`TypeError`
    on schema-violating documents and `KeyError` when the document lacks a
    top-level `version` while an entry matched; `_parse_yaml_from_string`
    raises `CLIError`) are modelled with `Except String`.

External collaborators that are not part of this module are represented
abstractly and are flagged as such in their doc comments (the legacy knack
help-population routine used by `HelpLoaderV0.versioned_load`, the
`HelpExample` constructor, the help object's example-inclusion predicate, the
YAML parser outcome, and command-loader/group registry objects).
-/

namespace HelpLoaders

/-- A Python runtime value as it can occur in a parsed YAML help document:
`None`, booleans, integers, strings, sequences and mappings. -/
inductive Value where
  | vnone : Value
  | vbool (b : Bool) : Value
  | vint (n : Int) : Value
  | vstr (s : String) : Value
  | vlist (xs : List Value) : Value
  | vdict (entries : List (String × Value)) : Value


/-- Python truthiness: `None`, `False`, `0`, `""`, `[]`, `{}` are falsy,
everything else is truthy. -/
def Value.truthy : Value → Bool
  | Value.vnone => false
  | Value.vbool b => b
  | Value.vint n => n != 0
  | Value.vstr s => !s.isEmpty
  | Value.vlist xs => !xs.isEmpty
  | Value.vdict entries => !entries.isEmpty

/-- A Python dictionary with string keys, as an association list. -/
abbrev Dict := List (String × Value)

/-- Python `d.get(k)`: the value of the first entry whose key is `k`, or
`None` (here: `Option.none`) when the key is absent. -/
def dget (d : Dict) (k : String) : Option Value :=
  match d.find? (fun p => p.1 == k) with
  | Option.some p => Option.some p.2
  | Option.none => Option.none

/-- Python `d[k] = v`: replace the value at the first entry with key `k`
(keeping its position), or append a new entry when `k` is absent. -/
def dictSet : Dict → String → Value → Dict
  | [], k, v => [(k, v)]
  | (k', v') :: rest, k, v =>
    if k' == k then (k, v) :: rest else (k', v') :: dictSet rest k v

/-- Truthiness of the result of a Python `.get` call (`None` when absent). -/
def optTruthy : Option Value → Bool
  | Option.some v => v.truthy
  | Option.none => false

/-- The elements of a Python list value; `[]` on any other value.  The source
only iterates such a value after a truthiness check, and every claim about
iteration is stated for documents whose field really is a sequence. -/
def asList : Value → List Value
  | Value.vlist xs => xs
  | _ => []

/-- The entries of a Python mapping value; `[]` on any other value. -/
def asDict : Value → Dict
  | Value.vdict d => d
  | _ => []

/-- Python `int == value` comparison for the version check: an `int` compares
equal to an equal `int` and (by Python semantics) to a `bool` of the same
numeric value; it compares unequal to `None` and to every other type. -/
def pyIntEqValue (n : Int) : Option Value → Bool
  | Option.some (Value.vint m) => n == m
  | Option.some (Value.vbool b) => n == (if b then (1 : Int) else 0)
  | _ => false

/-- Python `s.startswith(pre)`. -/
def pyStartsWith (s pre : String) : Bool :=
  pre.data.isPrefixOf s.data

/-- Helper for `pySplit`: walk the characters keeping the (reversed) current
token in `acc`. -/
def pySplitGo : List Char → List Char → List String
  | [], acc => if acc.isEmpty then [] else [String.mk acc.reverse]
  | c :: cs, acc =>
    if c.isWhitespace then
      if acc.isEmpty then pySplitGo cs [] else String.mk acc.reverse :: pySplitGo cs []
    else pySplitGo cs (c :: acc)

/-- Python `s.split()` with no separator: split on runs of whitespace,
producing no empty tokens. -/
def pySplit (s : String) : List String :=
  pySplitGo s.data []

/-- Substring test, used to state that an error message contains a path. -/
def strContains (s sub : String) : Bool :=
  (s.data.tails).any (fun t => sub.data.isPrefixOf t)

/-- The attribute store of a mutable Python object: attribute name to value,
first match wins on read, writes prepend. -/
abbrev Obj := List (String × Value)

/-- Python `setattr(o, a, v)`. -/
def Obj.set (o : Obj) (a : String) (v : Value) : Obj :=
  (a, v) :: o

/-- Python `getattr(o, a)`, as an `Option`. -/
def Obj.getattr (o : Obj) (a : String) : Option Value :=
  match o.find? (fun p => p.1 == a) with
  | Option.some p => Option.some p.2
  | Option.none => Option.none

/-- `BaseHelpLoader._update_obj_from_data_dict`: for each `(attr, key)` pair in
order, `setattr(obj, attr, data[key] or attr)`, skipping the pair when `key`
is absent from `data` (the `KeyError` is caught and ignored). -/
def _update_obj_from_data_dict (obj : Obj) (data : Dict) (attr_key_tups : List (String × String)) : Obj :=
  attr_key_tups.foldl
    (fun o ak =>
      match dget data ak.2 with
      | Option.some v => Obj.set o ak.1 (if v.truthy then v else Value.vstr ak.1)
      | Option.none => o)
    obj

/-- `BaseHelpLoader._data_is_applicable`: the stored raw data is truthy (a
non-empty dict; `self._data` is either `None` or a dict produced by
`_get_entry_data`) and its `version` entry compares equal to the loader's
declared version.  The logging side effect is irrelevant to the result. -/
def _data_is_applicable (version : Int) (data : Option Dict) : Bool :=
  match data with
  | Option.some d => !d.isEmpty && pyIntEqValue version (dget d "version")
  | Option.none => false

/-- A help-object parameter entry: its `name` attribute (the space-separated
alias string shown by `-h`) and its remaining attribute store (holding
`short_summary`, `long_summary`, `value_sources`, ...). -/
structure ParamObject where
  name : String
  attrs : Obj


/-- Modelled from the spec: `HelpExample` is defined in
`azure/cli/core/_help.py`, which is not among these sources; per the spec the
raw example record's key/value fields are forwarded to the constructor, so the
model retains the source record verbatim. -/
structure HelpExample where
  source : Value


/-- The mutable help object the loaders populate.  `attrs` holds the
dict-updatable attributes (`short_summary`, `long_summary`, `links`);
`has_parameters` models `hasattr(help_obj, "parameters")`. -/
structure HelpObject where
  attrs : Obj
  parameters : List ParamObject
  has_parameters : Bool
  examples : List HelpExample
  type : String
  command : String


namespace HelpLoaderV1

/-- `HelpLoaderV1.core_attrs_to_keys`. -/
def core_attrs_to_keys : List (String × String) :=
  [("short_summary", "summary"), ("long_summary", "description")]

/-- `HelpLoaderV1.body_attrs_to_keys`. -/
def body_attrs_to_keys : List (String × String) :=
  core_attrs_to_keys ++ [("links", "links")]

/-- `HelpLoaderV1.param_attrs_to_keys`. -/
def param_attrs_to_keys : List (String × String) :=
  core_attrs_to_keys ++ [("value_sources", "value-sources")]

/-- `HelpLoaderV1.load_help_body`: unconditionally clear `long_summary` to
`""` ("TEMPORARY TO MIMIC KNACK behavior"), then merge the body attributes
from the raw data. -/
def load_help_body (data : Dict) (h : HelpObject) : HelpObject :=
  { h with attrs := _update_obj_from_data_dict (Obj.set h.attrs "long_summary" (Value.vstr "")) data body_attrs_to_keys }

/-- The local predicate `params_equal` of `HelpLoaderV1.load_help_parameters`:
a raw argument record matches a parameter object iff the record's `name`
starts with `--` and occurs verbatim among the whitespace-separated tokens of
the parameter's name, or (positional) equals the parameter's name exactly.
On a record that is not a mapping with a string `name` the Python predicate
would raise; the model returns `false`, and every claim about matching is
stated for well-formed records. -/
def params_equal (param : ParamObject) (param_dict : Value) : Bool :=
  match dget (asDict param_dict) "name" with
  | Option.some (Value.vstr n) =>
    if pyStartsWith n "--" then (pySplit param.name).contains n
    else n == param.name
  | _ => false

/-- `HelpLoaderV1.load_help_parameters`: only for a command help object that
has a `parameters` attribute and raw data with a truthy `arguments` field,
replace each parameter object by its update from the first matching raw
argument record (unchanged when no record matches), keeping order. -/
def load_help_parameters (data : Dict) (h : HelpObject) : HelpObject :=
  if h.type == "command" && h.has_parameters && optTruthy (dget data "arguments") then
    { h with parameters := h.parameters.map (fun param_obj =>
        match (asList ((dget data "arguments").getD Value.vnone)).find? (fun n => params_equal param_obj n) with
        | Option.some loaded_param =>
          { param_obj with attrs := _update_obj_from_data_dict param_obj.attrs (asDict loaded_param) param_attrs_to_keys }
        | Option.none => param_obj) }
  else h

/-- `HelpLoaderV1.load_help_examples`: only for a command help object whose
raw data has a truthy `examples` field, replace the examples by the
constructed examples for the records accepted by the help object's inclusion
predicate, in document order.  `should_include` models the external
`help_obj._should_include_example` (defined in `_help.py`, outside these
sources), passed explicitly. -/
def load_help_examples (should_include : Value → Bool) (data : Dict) (h : HelpObject) : HelpObject :=
  if h.type == "command" && optTruthy (dget data "examples") then
    { h with examples := ((asList ((dget data "examples").getD Value.vnone)).filter should_include).map HelpExample.mk }
  else h

/-- `BaseHelpLoader.versioned_load` as inherited by `HelpLoaderV1`,
parameterised by the raw entry data that `load_raw_data` stored in
`self._data`: when the data is applicable, run body, parameters and examples
loads in that fixed order; otherwise leave the help object untouched. -/
def versioned_load (should_include : Value → Bool) (raw : Option Dict) (h : HelpObject) : HelpObject :=
  if _data_is_applicable 1 raw then
    match raw with
    | Option.some d => load_help_examples should_include d (load_help_parameters d (load_help_body d h))
    | Option.none => h
  else h

/-- One step of the generator in `_get_entry_data`: the `(key, value)` items
of a single `content` element, scanned for the first `value` whose `name`
entry equals the command name.  A `value` that is not a mapping raises
`AttributeError` in Python (`value.get`), modelled as `Except.error`. -/
def scanItemList (cmd_name : String) : List (String × Value) → Except String (Option Dict)
  | [] => Except.ok Option.none
  | (_, Value.vdict vd) :: rest =>
    if (match dget vd "name" with
        | Option.some (Value.vstr s) => s == cmd_name
        | _ => false) then
      Except.ok (Option.some vd)
    else scanItemList cmd_name rest
  | (_, _) :: _ => Except.error "AttributeError"

/-- The generator in `_get_entry_data` over the whole `content` sequence: the
first item value (in document order) whose `name` equals the command name.  A
`content` element that is not a mapping raises `AttributeError` in Python
(`elem.items()`), modelled as `Except.error`; exhaustion is the caught
`StopIteration`, modelled as `Except.ok Option.none`. -/
def scanContent (cmd_name : String) : List Value → Except String (Option Dict)
  | [] => Except.ok Option.none
  | Value.vdict d :: rest =>
    match scanItemList cmd_name d with
    | Except.error e => Except.error e
    | Except.ok (Option.some entry) => Except.ok (Option.some entry)
    | Except.ok Option.none => scanContent cmd_name rest
  | _ :: _ => Except.error "AttributeError"

/-- `HelpLoaderV1._get_entry_data`: when the parsed document and its `content`
field are truthy, find the first content entry whose `name` equals the
command's fully-qualified name, copy the document's top-level `version` onto
it (`entry_data["version"] = data['version']`, a `KeyError` when the document
has no `version`) and return it; return `None` when the document, its
`content`, or the search come up empty.  A truthy document that is not a
mapping, or a truthy `content` that is not a sequence of mappings, raises in
Python and is modelled as `Except.error`. -/
def _get_entry_data (cmd_name : String) (data : Option Value) : Except String (Option Dict) :=
  match data with
  | Option.none => Except.ok Option.none
  | Option.some v =>
    if v.truthy then
      match v with
      | Value.vdict dd =>
        match dget dd "content" with
        | Option.none => Except.ok Option.none
        | Option.some c =>
          if c.truthy then
            match c with
            | Value.vlist elems =>
              match scanContent cmd_name elems with
              | Except.error e => Except.error e
              | Except.ok Option.none => Except.ok Option.none
              | Except.ok (Option.some entry) =>
                match dget dd "version" with
                | Option.some ver => Except.ok (Option.some (dictSet entry "version" ver))
                | Option.none => Except.error "KeyError"
            | _ => Except.error "TypeError"
          else Except.ok Option.none
      | _ => Except.error "AttributeError"
    else Except.ok Option.none

end HelpLoaderV1

namespace HelpLoaderV0

/-- `HelpLoaderV0.versioned_load`: overrides the base orchestration entirely
and runs `super(CliHelpFile, help_obj).load(parser)` — the pre-existing legacy
help-population routine (knack's `HelpFile.load`), external to these sources
and therefore passed in as the arbitrary transformation `legacy_load`.  No
raw data is loaded and no applicability check happens. -/
def versioned_load (legacy_load : HelpObject → HelpObject) (h : HelpObject) : HelpObject :=
  legacy_load h

end HelpLoaderV0

/-- The split of a string at the position just after its last `'/'`:
`("", p)` when `p` has no slash.  Helper for `ospath_split`. -/
def lastSlashSplit (p : String) : String × String :=
  match (p.data.reverse.findIdx? (fun c => c = '/')) with
  | Option.none => ("", p)
  | Option.some k =>
    let n := p.data.length - k
    (String.mk (p.data.take n), String.mk (p.data.drop n))

/-- POSIX `os.path.split(p)`: split after the last slash, then strip trailing
slashes from the head unless the head consists only of slashes. -/
def ospath_split (p : String) : String × String :=
  let hd := (lastSlashSplit p).1
  let tl := (lastSlashSplit p).2
  if hd ≠ "" && hd.data.any (fun c => c ≠ '/') then
    (String.mk ((hd.data.reverse.dropWhile (fun c => c = '/')).reverse), tl)
  else (hd, tl)

/-- POSIX `os.path.basename(p)`. -/
def ospath_basename (p : String) : String :=
  (ospath_split p).2

/-- POSIX `os.path.dirname(p)`. -/
def ospath_dirname (p : String) : String :=
  (ospath_split p).1

/-- POSIX `os.path.join(a, b)` for a single right operand. -/
def ospath_join (a b : String) : String :=
  if pyStartsWith b "/" then b
  else if a = "" || pyStartsWith (String.mk a.data.reverse) "/" then a ++ b
  else a ++ "/" ++ b

/-- The `pretty_file_path` computed by `_parse_yaml_from_string`:
`os.path.join(os.path.basename(dir_name), base_name)` for
`dir_name, base_name = os.path.split(help_file_path)`. -/
def pretty_file_path (help_file_path : String) : String :=
  ospath_join (ospath_basename (ospath_dirname help_file_path)) (ospath_basename help_file_path)

/-- Modelled from the spec: the outcome of `yaml.load(text)` on the file's
text.  The YAML parser is an external library; it either returns a parsed
value (possibly `None` for an empty document) or raises a `yaml.YAMLError`
carrying a message. -/
inductive YamlOutcome where
  | parsed (v : Value) : YamlOutcome
  | yamlError (msg : String) : YamlOutcome

/-- Whether the parse outcome takes one of the two failure paths of
`_parse_yaml_from_string`: a `yaml.YAMLError`, or a successfully parsed but
falsy (empty) document. -/
def YamlOutcome.isFailure : YamlOutcome → Bool
  | YamlOutcome.parsed v => !v.truthy
  | YamlOutcome.yamlError _ => true

/-- The local function `_parse_yaml_from_string` of
`BaseHelpLoader._get_yaml_help_for_nouns`: return the parsed data when it is
truthy; raise `CLIError("Error: Help file {} is empty")` when the parsed data
is falsy; raise `CLIError("Error parsing {}:\n\n{}")` on a `yaml.YAMLError`.
Both messages name the pretty (relative) file path. -/
def _parse_yaml_from_string (outcome : YamlOutcome) (help_file_path : String) : Except String Value :=
  match outcome with
  | YamlOutcome.parsed v =>
    if v.truthy then Except.ok v
    else Except.error ("Error: Help file " ++ pretty_file_path help_file_path ++ " is empty")
  | YamlOutcome.yamlError e =>
    Except.error ("Error parsing " ++ pretty_file_path help_file_path ++ ":\n\n" ++ e)

/-- Modelled from the spec: a command-loader object as stored in
`cmd_to_loader_map`.  Loader objects are module-owning collaborators defined
outside these sources; only their identity matters to the resolution logic. -/
structure LoaderRef where
  id : Nat
deriving DecidableEq

/-- Modelled from the spec: a command-group object as stored in
`command_group_table`, defined outside these sources.  A group object
optionally exposes its owning command loader (`grp_obj.command_loader`);
`Option.none` models a falsy/absent loader. -/
structure GroupObj where
  command_loader : Option LoaderRef
deriving DecidableEq

/-- The registry mapping fully-qualified command names to their list of
loader objects (`cmd_to_loader_map`), in insertion order. -/
abbrev CmdLoaderMap := List (String × List LoaderRef)

/-- The registry mapping group names to their (possibly `None`) group objects
(`command_group_table`), in insertion order. -/
abbrev CmdGroupTable := List (String × Option GroupObj)

/-- Tier 1 of the lookup in `_get_yaml_help_for_nouns`:
`cmd_loader_map_ref.get(command_nouns, [None])[0]`.  An entry with an empty
loader list would raise `IndexError` in Python; claims are stated for
registries whose entries are non-empty, where `List.head?` is exact. -/
def tier1 (command_nouns : String) (m : CmdLoaderMap) : Option LoaderRef :=
  match m.find? (fun p => p.1 == command_nouns) with
  | Option.some p => p.2.head?
  | Option.none => Option.none

/-- Tier 2 of the lookup: scan `cmd_group_table` in order for the first entry
with a truthy group object whose name equals the joined nouns, and take that
group object's command loader (which may itself be absent). -/
def tier2 (command_nouns : String) (g : CmdGroupTable) : Option LoaderRef :=
  match g.find? (fun p => p.2.isSome && p.1 == command_nouns) with
  | Option.some (_, Option.some grp_obj) => grp_obj.command_loader
  | _ => Option.none

/-- Tier 3 of the lookup: the first registered command whose name starts with
the joined nouns followed by a space; its first loader is used. -/
def tier3 (command_nouns : String) (m : CmdLoaderMap) : Option LoaderRef :=
  match m.find? (fun p => pyStartsWith p.1 (command_nouns ++ " ")) with
  | Option.some p => p.2.head?
  | Option.none => Option.none

/-- The sequential loader resolution of `_get_yaml_help_for_nouns`: the
`loader` variable after the three `if not loader` stages. -/
def resolveLoader (command_nouns : String) (m : CmdLoaderMap) (g : CmdGroupTable) : Option LoaderRef :=
  match tier1 command_nouns m with
  | Option.some l => Option.some l
  | Option.none =>
    match tier2 command_nouns g with
    | Option.some l => Option.some l
    | Option.none => tier3 command_nouns m

/-- `BaseHelpLoader._get_yaml_help_for_nouns`, with the filesystem part
abstracted: `fetchDoc` models locating the resolved loader's module directory,
finding a sibling `*help.yaml`/`*help.yml` file and parsing it (`Option.none`
when no such file exists).  When no loader resolves, the function returns
`None` without consulting the filesystem. -/
def _get_yaml_help_for_nouns (nouns : List String) (cmd_loader_map_ref : CmdLoaderMap)
    (cmd_group_table : CmdGroupTable) (fetchDoc : LoaderRef → Option Value) : Option Value :=
  match resolveLoader (" ".intercalate nouns) cmd_loader_map_ref cmd_group_table with
  | Option.some loader => fetchDoc loader
  | Option.none => Option.none

end HelpLoaders

namespace HelpLoaders

theorem dget_cons (k' : String) (v' : Value) (rest : Dict) (k : String) :
    dget ((k', v') :: rest) k = if k' == k then Option.some v' else dget rest k := by
  by_cases h : k' == k <;> simp [dget, List.find?_cons, h]

theorem dget_nil (k : String) : dget [] k = Option.none := rfl

theorem getattr_set_self (o : Obj) (a : String) (v : Value) :
    Obj.getattr (Obj.set o a v) a = Option.some v := by
  simp [Obj.getattr, Obj.set, List.find?_cons]

theorem getattr_set_ne (o : Obj) (a b : String) (v : Value) (h : a ≠ b) :
    Obj.getattr (Obj.set o a v) b = Obj.getattr o b := by
  simp [Obj.getattr, Obj.set, List.find?_cons, beq_iff_eq, h]

theorem dget_dictSet_self (d : Dict) (k : String) (v : Value) :
    dget (dictSet d k v) k = Option.some v := by
  induction d with
  | nil => simp [dictSet, dget_cons]
  | cons p rest ih =>
    obtain ⟨k', v'⟩ := p
    by_cases h : k' == k
    · simp [dictSet, h, dget_cons]
    · simp [dictSet, h, dget_cons, ih]

theorem dictSet_ne_nil (d : Dict) (k : String) (v : Value) :
    dictSet d k v ≠ [] := by
  cases d with
  | nil => simp [dictSet]
  | cons p rest =>
    obtain ⟨k', v'⟩ := p
    by_cases h : k' == k <;> simp [dictSet, h]

/-- Claim C4: for every target object, data dict, and `(attribute, key)` pair
processed by `_update_obj_from_data_dict`, a missing key leaves the attribute
(indeed the whole object) as it was, a present truthy value is assigned to the
attribute, and a present falsy value assigns the attribute's own name string
instead. -/
theorem claim_C4 (obj : Obj) (data : Dict) (attr key : String) (rest : List (String × String)) :
    (dget data key = Option.none →
      _update_obj_from_data_dict obj data ((attr, key) :: rest) = _update_obj_from_data_dict obj data rest) ∧
    (∀ v, dget data key = Option.some v → v.truthy = true →
      _update_obj_from_data_dict obj data ((attr, key) :: rest)
        = _update_obj_from_data_dict (Obj.set obj attr v) data rest) ∧
    (∀ v, dget data key = Option.some v → v.truthy = false →
      _update_obj_from_data_dict obj data ((attr, key) :: rest)
        = _update_obj_from_data_dict (Obj.set obj attr (Value.vstr attr)) data rest) := by
  refine ⟨fun hnone => ?_, fun v hsome htru => ?_, fun v hsome hfls => ?_⟩
  · simp [_update_obj_from_data_dict, hnone]
  · simp [_update_obj_from_data_dict, hsome, htru]
  · simp [_update_obj_from_data_dict, hsome, hfls]

def c4_obj : Obj := [("short_summary", Value.vstr "old"), ("long_summary", Value.vstr "keep")]

def c4_data : Dict := [("summary", Value.vstr "New summary"), ("description", Value.vstr "")]

theorem claim_C4_witness :
    (_update_obj_from_data_dict c4_obj c4_data [("links", "links")]
      = _update_obj_from_data_dict c4_obj c4_data []) ∧
    (_update_obj_from_data_dict c4_obj c4_data [("short_summary", "summary")]
      = _update_obj_from_data_dict (Obj.set c4_obj "short_summary" (Value.vstr "New summary")) c4_data []) ∧
    (_update_obj_from_data_dict c4_obj c4_data [("long_summary", "description")]
      = _update_obj_from_data_dict (Obj.set c4_obj "long_summary" (Value.vstr "long_summary")) c4_data []) :=
  ⟨(claim_C4 c4_obj c4_data "links" "links" []).1 rfl,
   (claim_C4 c4_obj c4_data "short_summary" "summary" []).2.1 (Value.vstr "New summary") rfl rfl,
   (claim_C4 c4_obj c4_data "long_summary" "description" []).2.2 (Value.vstr "") rfl rfl⟩

/-- Claim C5: `HelpLoaderV1.load_help_body` clears `long_summary` to the empty
string before merging, so whenever the raw data has no `description` key the
resulting `long_summary` is the empty string, regardless of its prior value. -/
theorem claim_C5 (data : Dict) (h : HelpObject) (hdesc : dget data "description" = Option.none) :
    Obj.getattr (HelpLoaderV1.load_help_body data h).attrs "long_summary"
      = Option.some (Value.vstr "") := by
  simp only [HelpLoaderV1.load_help_body, HelpLoaderV1.body_attrs_to_keys,
    HelpLoaderV1.core_attrs_to_keys, _update_obj_from_data_dict, List.cons_append,
    List.nil_append, List.foldl_cons, List.foldl_nil, hdesc]
  cases hsum : dget data "summary" <;> cases hlinks : dget data "links" <;>
    simp [Obj.getattr, Obj.set, List.find?_cons]

def c5_data : Dict := [("summary", Value.vstr "S")]

def c5_obj : HelpObject :=
  { attrs := [("long_summary", Value.vstr "stale detail")], parameters := [],
    has_parameters := true, examples := [], type := "command", command := "vm create" }

theorem claim_C5_witness :
    Obj.getattr (HelpLoaderV1.load_help_body c5_data c5_obj).attrs "long_summary"
      = Option.some (Value.vstr "") :=
  claim_C5 c5_data c5_obj rfl

/-- Claim C10: `HelpLoaderV1.load_help_parameters` does nothing at all — the
help object is returned untouched, parameters not even reassigned — when the
help object's type is not `command`, or the raw data has no `arguments` key,
or its `arguments` value is falsy (such as an empty sequence). -/
theorem claim_C10 (data : Dict) (h : HelpObject) :
    (h.type ≠ "command" → HelpLoaderV1.load_help_parameters data h = h) ∧
    (dget data "arguments" = Option.none → HelpLoaderV1.load_help_parameters data h = h) ∧
    (∀ v, dget data "arguments" = Option.some v → v.truthy = false →
      HelpLoaderV1.load_help_parameters data h = h) := by
  refine ⟨fun hty => ?_, fun hnone => ?_, fun v hsome hfls => ?_⟩
  · simp [HelpLoaderV1.load_help_parameters, hty]
  · simp [HelpLoaderV1.load_help_parameters, hnone, optTruthy]
  · simp [HelpLoaderV1.load_help_parameters, hsome, optTruthy, hfls]

def c10_data : Dict := [("summary", Value.vstr "S"), ("arguments", Value.vlist [])]

def c10_obj : HelpObject :=
  { attrs := [], parameters := [⟨"--foo -f", [("short_summary", Value.vstr "FS")]⟩],
    has_parameters := true, examples := [], type := "command", command := "vm create" }

theorem claim_C10_witness :
    HelpLoaderV1.load_help_parameters c10_data c10_obj = c10_obj :=
  (claim_C10 c10_data c10_obj).2.2 (Value.vlist []) rfl rfl

/-- Claim C2: `_data_is_applicable` holds exactly when the stored raw data is
a present, non-empty dict whose `version` entry compares equal to the
loader's declared version (0 for `HelpLoaderV0`, 1 for `HelpLoaderV1`), and
consequently the two concrete loaders are never both applicable to the same
raw data. -/
theorem claim_C2 :
    (∀ d : Option Dict, _data_is_applicable 0 d = true ↔
      ∃ dd, d = Option.some dd ∧ dd ≠ [] ∧ pyIntEqValue 0 (dget dd "version") = true) ∧
    (∀ d : Option Dict, _data_is_applicable 1 d = true ↔
      ∃ dd, d = Option.some dd ∧ dd ≠ [] ∧ pyIntEqValue 1 (dget dd "version") = true) ∧
    (∀ d : Option Dict, (_data_is_applicable 0 d && _data_is_applicable 1 d) = false) := by
  refine ⟨?_, ?_, ?_⟩
  · intro d
    cases d with
    | none => simp [_data_is_applicable]
    | some dd => simp [_data_is_applicable, List.isEmpty_iff]
  · intro d
    cases d with
    | none => simp [_data_is_applicable]
    | some dd => simp [_data_is_applicable, List.isEmpty_iff]
  · intro d
    cases d with
    | none => rfl
    | some dd =>
      simp only [_data_is_applicable]
      cases hv : dget dd "version" with
      | none => simp [pyIntEqValue]
      | some v =>
        cases v with
        | vbool b => cases b <;> simp [pyIntEqValue]
        | vint n =>
          simp only [pyIntEqValue, Bool.and_assoc]
          by_cases h0 : (0 : Int) = n
          · have h1 : ((1 : Int) == n) = false := by
              subst h0; rfl
            simp [h1]
          · have h0' : ((0 : Int) == n) = false := by
              simpa using h0
            simp [h0']
        | vnone => simp [pyIntEqValue]
        | vstr s => simp [pyIntEqValue]
        | vlist xs => simp [pyIntEqValue]
        | vdict es => simp [pyIntEqValue]

def c2_data : Dict := [("version", Value.vint 1), ("summary", Value.vstr "S")]

theorem claim_C2_witness :
    _data_is_applicable 1 (Option.some c2_data) = true ∧
    (_data_is_applicable 0 (Option.some c2_data) && _data_is_applicable 1 (Option.some c2_data)) = false :=
  ⟨(claim_C2.2.1 (Option.some c2_data)).mpr ⟨c2_data, rfl, by simp [c2_data], rfl⟩,
   claim_C2.2.2 (Option.some c2_data)⟩


/-- Claim C6: for a command help object whose raw data carries a non-empty
`examples` sequence, `HelpLoaderV1.load_help_examples` replaces the examples
with exactly the constructed examples whose source records pass the help
object's inclusion predicate, in document order, leaving every other field
alone; in every other case (non-command type, missing `examples` key, falsy
`examples` value) the help object is untouched. -/
theorem claim_C6 (should_include : Value → Bool) (data : Dict) (h : HelpObject) :
    (∀ exs, h.type = "command" → dget data "examples" = Option.some (Value.vlist exs) → exs ≠ [] →
      HelpLoaderV1.load_help_examples should_include data h
        = { h with examples := (exs.filter should_include).map HelpExample.mk }) ∧
    (h.type ≠ "command" → HelpLoaderV1.load_help_examples should_include data h = h) ∧
    (dget data "examples" = Option.none → HelpLoaderV1.load_help_examples should_include data h = h) ∧
    (∀ v, dget data "examples" = Option.some v → v.truthy = false →
      HelpLoaderV1.load_help_examples should_include data h = h) := by
  refine ⟨fun exs hty hex hne => ?_, fun hty => ?_, fun hnone => ?_, fun v hsome hfls => ?_⟩
  · simp [HelpLoaderV1.load_help_examples, hty, hex, optTruthy, Value.truthy, hne, asList]
  · simp [HelpLoaderV1.load_help_examples, hty]
  · simp [HelpLoaderV1.load_help_examples, hnone, optTruthy]
  · simp [HelpLoaderV1.load_help_examples, hsome, optTruthy, hfls]

def c6_keep : Value := Value.vdict [("name", Value.vstr "ex1"), ("text", Value.vstr "az vm create")]

def c6_drop : Value := Value.vdict [("name", Value.vstr "ex2"), ("unsupported-profiles", Value.vstr "2017")]

def c6_pred : Value → Bool := fun v => (dget (asDict v) "unsupported-profiles").isNone

def c6_data : Dict := [("examples", Value.vlist [c6_keep, c6_drop])]

def c6_obj : HelpObject :=
  { attrs := [], parameters := [], has_parameters := true,
    examples := [HelpExample.mk (Value.vstr "stale")], type := "command", command := "vm create" }

theorem claim_C6_witness :
    HelpLoaderV1.load_help_examples c6_pred c6_data c6_obj
      = { c6_obj with examples := ([c6_keep, c6_drop].filter c6_pred).map HelpExample.mk } :=
  (claim_C6 c6_pred c6_data c6_obj).1 [c6_keep, c6_drop] rfl rfl (by simp)

/-- Claim C3: the matching predicate of `HelpLoaderV1.load_help_parameters`
accepts a record against a parameter object exactly when the record's name,
if it starts with `--`, is verbatim one of the whitespace-separated tokens of
the parameter's name, and otherwise equals the parameter's name; the record
used for a parameter is the first one in document order satisfying the
predicate, and that record's summary / description / value-sources entries
are what get merged onto the parameter object. -/
theorem claim_C3 :
    (∀ (param : ParamObject) (d : Dict) (n : String),
      dget d "name" = Option.some (Value.vstr n) →
      (HelpLoaderV1.params_equal param (Value.vdict d) = true ↔
        (if pyStartsWith n "--" = true then n ∈ pySplit param.name else n = param.name))) ∧
    (∀ (param : ParamObject) (args : List Value) (i : Nat) (hi : i < args.length),
      HelpLoaderV1.params_equal param (args.get ⟨i, hi⟩) = true →
      (∀ j (hj : j < args.length), j < i → HelpLoaderV1.params_equal param (args.get ⟨j, hj⟩) = false) →
      args.find? (HelpLoaderV1.params_equal param) = Option.some (args.get ⟨i, hi⟩)) ∧
    (∀ (data : Dict) (h : HelpObject) (args : List Value),
      h.type = "command" → h.has_parameters = true →
      dget data "arguments" = Option.some (Value.vlist args) → args ≠ [] →
      (HelpLoaderV1.load_help_parameters data h).parameters =
        h.parameters.map (fun p =>
          match args.find? (HelpLoaderV1.params_equal p) with
          | Option.some r =>
            { p with attrs := _update_obj_from_data_dict p.attrs (asDict r) HelpLoaderV1.param_attrs_to_keys }
          | Option.none => p)) := by
  refine ⟨fun param d n hname => ?_, fun param args => ?_, fun data h args hty hhas harg hne => ?_⟩
  · simp only [HelpLoaderV1.params_equal, asDict, hname]
    by_cases hpre : pyStartsWith n "--"
    · simp only [hpre, if_true]
      exact ⟨fun hc => List.elem_iff.mp hc, fun hm => List.elem_iff.mpr hm⟩
    · simp [hpre, beq_iff_eq]
  · induction args with
    | nil => intro i hi; exact absurd hi (by simp)
    | cons a rest ih =>
      intro i hi hpi hprev
      cases i with
      | zero =>
        have hpa : HelpLoaderV1.params_equal param a = true := by simpa using hpi
        rw [List.find?_cons_of_pos _ hpa]
        rfl
      | succ n =>
        have hi' : n < rest.length := by
          simp only [List.length_cons] at hi
          omega
        have ha : HelpLoaderV1.params_equal param a = false := by
          have h0 := hprev 0 (by simp) (by omega)
          simpa using h0
        simp only [List.get] at hpi
        rw [List.find?_cons_of_neg _ (by simp [ha])]
        simp only [List.get]
        exact ih n hi' hpi
          (fun j hj hlt => by
            have hjs := hprev (j + 1) (by simp only [List.length_cons]; omega) (by omega)
            simpa using hjs)
  · simp [HelpLoaderV1.load_help_parameters, hty, hhas, harg, optTruthy, Value.truthy, hne, asList]

def c3_param : ParamObject := ⟨"-f --foo", [("short_summary", Value.vstr "old")]⟩

def c3_args : List Value :=
  [Value.vdict [("name", Value.vstr "--bar")],
   Value.vdict [("name", Value.vstr "--foo"), ("summary", Value.vstr "FS")]]

theorem claim_C3_witness :
    c3_args.find? (HelpLoaderV1.params_equal c3_param)
      = Option.some (c3_args.get ⟨1, by decide⟩) :=
  claim_C3.2.1 c3_param c3_args 1 (by decide) rfl
    (fun j hj hlt => by
      have hj0 : j = 0 := by omega
      subst hj0
      rfl)


theorem scanItemList_ok_none (cmd : String) (ed : List (String × Value))
    (hwf : ∀ kv ∈ ed, ∃ vd, kv.2 = Value.vdict vd ∧ ¬dget vd "name" = Option.some (Value.vstr cmd)) :
    HelpLoaderV1.scanItemList cmd ed = Except.ok Option.none := by
  induction ed with
  | nil => rfl
  | cons kv rest ih =>
    obtain ⟨vd, hv, hn⟩ := hwf kv (List.mem_cons_self kv rest)
    obtain ⟨k, v⟩ := kv
    simp only at hv
    subst hv
    have hrest := ih (fun kv2 hkv2 => hwf kv2 (List.mem_cons_of_mem _ hkv2))
    cases hd : dget vd "name" with
    | none => simpa [HelpLoaderV1.scanItemList, hd] using hrest
    | some w =>
      cases w with
      | vstr s =>
        have hsc : (s == cmd) = false := by
          by_cases hq : s = cmd
          · subst hq; exact absurd hd hn
          · simpa using hq
        simpa [HelpLoaderV1.scanItemList, hd, hsc] using hrest
      | vnone => simpa [HelpLoaderV1.scanItemList, hd] using hrest
      | vbool b => simpa [HelpLoaderV1.scanItemList, hd] using hrest
      | vint m => simpa [HelpLoaderV1.scanItemList, hd] using hrest
      | vlist xs => simpa [HelpLoaderV1.scanItemList, hd] using hrest
      | vdict es => simpa [HelpLoaderV1.scanItemList, hd] using hrest

theorem scanContent_ok_none (cmd : String) (elems : List Value)
    (hwf : ∀ e ∈ elems, ∃ ed, e = Value.vdict ed ∧
      ∀ kv ∈ ed, ∃ vd, kv.2 = Value.vdict vd ∧ ¬dget vd "name" = Option.some (Value.vstr cmd)) :
    HelpLoaderV1.scanContent cmd elems = Except.ok Option.none := by
  induction elems with
  | nil => rfl
  | cons e rest ih =>
    obtain ⟨ed, he, hkv⟩ := hwf e (List.mem_cons_self e rest)
    subst he
    have h1 := scanItemList_ok_none cmd ed hkv
    have hrest := ih (fun e2 he2 => hwf e2 (List.mem_cons_of_mem _ he2))
    simp [HelpLoaderV1.scanContent, h1, hrest]

/-- Claim C8: when no entry of the document's `content` sequence names the
help object's command, `_get_entry_data` returns `None` without raising, so
the loader holds no raw data, is inapplicable, and `versioned_load` leaves
every field of the help object untouched. -/
theorem claim_C8 (should_include : Value → Bool) (cmd : String) (dd : Dict) (elems : List Value)
    (h : HelpObject)
    (hcontent : dget dd "content" = Option.some (Value.vlist elems))
    (hwf : ∀ e ∈ elems, ∃ ed, e = Value.vdict ed ∧
      ∀ kv ∈ ed, ∃ vd, kv.2 = Value.vdict vd ∧ ¬dget vd "name" = Option.some (Value.vstr cmd)) :
    HelpLoaderV1._get_entry_data cmd (Option.some (Value.vdict dd)) = Except.ok Option.none ∧
    _data_is_applicable 1 Option.none = false ∧
    HelpLoaderV1.versioned_load should_include Option.none h = h := by
  refine ⟨?_, rfl, rfl⟩
  have hdd : dd ≠ [] := by
    intro hnil
    subst hnil
    simp [dget] at hcontent
  have htr : (Value.vdict dd).truthy = true := by
    simp [Value.truthy, List.isEmpty_iff, hdd]
  by_cases hel : elems = []
  · subst hel
    simp [HelpLoaderV1._get_entry_data, htr, hcontent, Value.truthy]
  · have hs := scanContent_ok_none cmd elems hwf
    simp [HelpLoaderV1._get_entry_data, htr, hcontent, Value.truthy, List.isEmpty_iff, hel, hs]

def c8_entry : Dict := [("name", Value.vstr "other command"), ("summary", Value.vstr "S")]

def c8_doc : Dict :=
  [("version", Value.vint 1), ("content", Value.vlist [Value.vdict [("x", Value.vdict c8_entry)]])]

def c8_obj : HelpObject :=
  { attrs := [("short_summary", Value.vstr "kept")], parameters := [], has_parameters := true,
    examples := [], type := "command", command := "vm create" }

theorem claim_C8_witness :
    HelpLoaderV1._get_entry_data "vm create" (Option.some (Value.vdict c8_doc)) = Except.ok Option.none ∧
    _data_is_applicable 1 Option.none = false ∧
    HelpLoaderV1.versioned_load (fun _ => true) Option.none c8_obj = c8_obj :=
  claim_C8 (fun _ => true) "vm create" c8_doc [Value.vdict [("x", Value.vdict c8_entry)]] c8_obj rfl
    (by
      intro e he
      simp only [List.mem_singleton] at he
      subst he
      refine ⟨_, rfl, ?_⟩
      intro kv hkv
      simp only [List.mem_singleton] at hkv
      subst hkv
      refine ⟨c8_entry, rfl, ?_⟩
      have hne : ("other command" : String) ≠ "vm create" := by decide
      simp [c8_entry, dget_cons, hne])

theorem _get_entry_data_version (cmd : String) (dd : Dict) (e : Dict)
    (hok : HelpLoaderV1._get_entry_data cmd (Option.some (Value.vdict dd)) = Except.ok (Option.some e)) :
    dget e "version" = dget dd "version" := by
  simp only [HelpLoaderV1._get_entry_data] at hok
  by_cases htr : (Value.vdict dd).truthy
  case neg => simp [htr] at hok
  rw [if_pos htr] at hok
  cases hc : dget dd "content" with
  | none => simp [hc] at hok
  | some c =>
    simp only [hc] at hok
    by_cases hct : c.truthy = true
    case neg => rw [if_neg hct] at hok; exact absurd hok (by simp)
    rw [if_pos hct] at hok
    cases c with
    | vlist elems =>
      cases hsc : HelpLoaderV1.scanContent cmd elems with
      | error msg => simp [hsc] at hok
      | ok entry =>
        cases entry with
        | none => simp [hsc] at hok
        | some entry =>
          simp only [hsc] at hok
          cases hv : dget dd "version" with
          | none => simp [hv] at hok
          | some ver =>
            simp only [hv, Except.ok.injEq, Option.some.injEq] at hok
            rw [← hok]
            exact dget_dictSet_self entry "version" ver
    | vnone => simp at hok
    | vbool b => simp at hok
    | vint m => simp at hok
    | vstr s2 => simp at hok
    | vdict es => simp at hok

def legacyPopulate : HelpObject → HelpObject := fun h =>
  { h with attrs := Obj.set h.attrs "short_summary" (Value.vstr "Create a resource.") }

def c1_obj : HelpObject :=
  { attrs := [], parameters := [], has_parameters := true, examples := [],
    type := "command", command := "vm create" }

def c1_doc : Dict := [("version", Value.vint 1)]

/-- Claim C1 counterexample: the claim quantifies over loaders, but
`HelpLoaderV0.versioned_load` bypasses the base orchestration entirely and
unconditionally runs the legacy help-population routine, so with a raw help
document whose version (1) differs from V0's declared version (0) the help
object is still modified. -/
theorem claim_C1_counterexample :
    pyIntEqValue 0 (dget c1_doc "version") = false ∧
    HelpLoaderV0.versioned_load legacyPopulate c1_obj ≠ c1_obj := by
  refine ⟨rfl, ?_⟩
  intro he
  have hlen := congrArg (fun o => o.attrs.length) he
  simp [HelpLoaderV0.versioned_load, legacyPopulate, Obj.set, c1_obj] at hlen

/-- Claim C1 (amended): for the loaders that follow the base orchestration
(`HelpLoaderV1`), whenever the raw help document's `version` field differs
from the loader's declared version 1, `versioned_load` leaves every field of
the help object completely unmodified, whatever entry data the document
yields; `HelpLoaderV0.versioned_load` is excluded because it delegates
unconditionally to the legacy population routine. -/
theorem claim_C1 (should_include : Value → Bool) (cmd : String) (dd : Dict) (ed : Option Dict)
    (h : HelpObject)
    (hver : pyIntEqValue 1 (dget dd "version") = false)
    (hok : HelpLoaderV1._get_entry_data cmd (Option.some (Value.vdict dd)) = Except.ok ed) :
    HelpLoaderV1.versioned_load should_include ed h = h := by
  cases ed with
  | none => rfl
  | some e =>
    have hev := _get_entry_data_version cmd dd e hok
    have happ : _data_is_applicable 1 (Option.some e) = false := by
      simp [_data_is_applicable, hev, hver]
    simp [HelpLoaderV1.versioned_load, happ]

def c1w_entry : Dict := [("name", Value.vstr "vm create"), ("summary", Value.vstr "S")]

def c1w_doc : Dict :=
  [("version", Value.vint 0), ("content", Value.vlist [Value.vdict [("x", Value.vdict c1w_entry)]])]

def c1w_obj : HelpObject :=
  { attrs := [("short_summary", Value.vstr "kept"), ("long_summary", Value.vstr "kept too")],
    parameters := [⟨"--foo -f", []⟩], has_parameters := true, examples := [],
    type := "command", command := "vm create" }

theorem claim_C1_witness :
    HelpLoaderV1.versioned_load (fun _ => true)
      (Option.some (dictSet c1w_entry "version" (Value.vint 0))) c1w_obj = c1w_obj :=
  claim_C1 (fun _ => true) "vm create" c1w_doc
    (Option.some (dictSet c1w_entry "version" (Value.vint 0))) c1w_obj rfl rfl


theorem strContains_of_data (s sub : String) (pre post : List Char)
    (h : s.data = pre ++ sub.data ++ post) : strContains s sub = true := by
  simp only [strContains, List.any_eq_true]
  refine ⟨sub.data ++ post, ?_, ?_⟩
  · rw [List.mem_tails, h, List.append_assoc]
    exact ⟨pre, rfl⟩
  · rw [List.isPrefixOf_iff_prefix]
    exact List.prefix_append sub.data post

/-- Claim C7: an empty (falsy) parsed help document, and any YAML parse
error, make `_parse_yaml_from_string` raise a `CLIError` whose message
contains the file's relative pretty path (parent directory joined with the
file name); neither failure is swallowed. -/
theorem claim_C7 (outcome : YamlOutcome) (help_file_path : String)
    (hfail : outcome.isFailure = true) :
    ∃ msg, _parse_yaml_from_string outcome help_file_path = Except.error msg ∧
      strContains msg (pretty_file_path help_file_path) = true := by
  cases outcome with
  | parsed v =>
    have hv : v.truthy = false := by simpa [YamlOutcome.isFailure] using hfail
    refine ⟨"Error: Help file " ++ pretty_file_path help_file_path ++ " is empty", ?_, ?_⟩
    · simp [_parse_yaml_from_string, hv]
    · exact strContains_of_data _ _ ("Error: Help file ".data) (" is empty".data)
        (by simp)
  | yamlError e =>
    refine ⟨"Error parsing " ++ pretty_file_path help_file_path ++ ":\n\n" ++ e, rfl, ?_⟩
    exact strContains_of_data _ _ ("Error parsing ".data) (":\n\n".data ++ e.data)
      (by simp [List.append_assoc])

theorem claim_C7_witness :
    ∃ msg, _parse_yaml_from_string (YamlOutcome.parsed Value.vnone)
        "/root/azure/cli/command_modules/vm/_help.yaml" = Except.error msg ∧
      strContains msg (pretty_file_path "/root/azure/cli/command_modules/vm/_help.yaml") = true :=
  claim_C7 (YamlOutcome.parsed Value.vnone) "/root/azure/cli/command_modules/vm/_help.yaml" rfl

/-- Claim C9: the loader that locates the help document is resolved in strict
priority order — first the exact command-map entry for the joined nouns, then
the command loader of a group object named by the joined nouns, then the
first registered command whose name starts with the joined nouns plus a
space — and when all three tiers fail, no document is fetched and the result
is `None`. -/
theorem claim_C9 (nouns : List String) (m : CmdLoaderMap) (g : CmdGroupTable)
    (fetchDoc : LoaderRef → Option Value) :
    (∀ cmd l ls, m.find? (fun p => p.1 == " ".intercalate nouns) = Option.some (cmd, l :: ls) →
      _get_yaml_help_for_nouns nouns m g fetchDoc = fetchDoc l) ∧
    (∀ gn go l, m.find? (fun p => p.1 == " ".intercalate nouns) = Option.none →
      g.find? (fun p => p.2.isSome && p.1 == " ".intercalate nouns) = Option.some (gn, Option.some go) →
      go.command_loader = Option.some l →
      _get_yaml_help_for_nouns nouns m g fetchDoc = fetchDoc l) ∧
    (∀ cmd l ls, m.find? (fun p => p.1 == " ".intercalate nouns) = Option.none →
      tier2 (" ".intercalate nouns) g = Option.none →
      m.find? (fun p => pyStartsWith p.1 (" ".intercalate nouns ++ " ")) = Option.some (cmd, l :: ls) →
      _get_yaml_help_for_nouns nouns m g fetchDoc = fetchDoc l) ∧
    (m.find? (fun p => p.1 == " ".intercalate nouns) = Option.none →
      tier2 (" ".intercalate nouns) g = Option.none →
      m.find? (fun p => pyStartsWith p.1 (" ".intercalate nouns ++ " ")) = Option.none →
      _get_yaml_help_for_nouns nouns m g fetchDoc = Option.none) := by
  refine ⟨?_, ?_, ?_, ?_⟩
  · intro cmd l ls h1
    simp [_get_yaml_help_for_nouns, resolveLoader, tier1, h1]
  · intro gn go l h1 h2 h3
    simp [_get_yaml_help_for_nouns, resolveLoader, tier1, tier2, h1, h2, h3]
  · intro cmd l ls h1 h2 h3
    simp [_get_yaml_help_for_nouns, resolveLoader, tier1, tier3, h1, h2, h3]
  · intro h1 h2 h3
    simp [_get_yaml_help_for_nouns, resolveLoader, tier1, tier3, h1, h2, h3]

def c9_map : CmdLoaderMap := [("vm create", [⟨1⟩]), ("vm delete", [⟨3⟩])]

def c9_groups : CmdGroupTable := [("sf", Option.none), ("vm", Option.some ⟨Option.some ⟨2⟩⟩)]

def c9_fetch : LoaderRef → Option Value := fun l => Option.some (Value.vint (Int.ofNat l.id))

theorem claim_C9_witness :
    _get_yaml_help_for_nouns ["vm"] c9_map c9_groups c9_fetch = c9_fetch ⟨2⟩ :=
  (claim_C9 ["vm"] c9_map c9_groups c9_fetch).2.1 "vm" ⟨Option.some ⟨2⟩⟩ ⟨2⟩ rfl rfl rfl

end HelpLoaders
